import Mathlib

/-
Verification development for the EC2IC Manager application
(src/EC2ICManager.py, class AwsRdpConnect).

The Python program is a Tk GUI orchestrating: settings load/save, AWS
profile resolution, a local port allocation, an `aws ec2-instance-connect
open-tunnel` subprocess, a liveness grace check, and a platform-specific
remote-desktop client launch chain.  The definitions below are a shallow
embedding of the relevant source functions; external effects (subprocess
spawns, `which` lookups, file writes) are represented by explicit inputs
describing their outcomes, and the functions return the observable results
(state updates, recorded launch attempts, surfaced messages).
-/

set_option autoImplicit false

namespace EC2ICManager

/-- Result of Python `platform.system()`: "Windows", "Darwin", or anything
else (the code treats every other value as Linux-like). -/
inductive SystemKind where
  | windows
  | darwin
  | linuxLike
deriving DecidableEq, Repr

/-- Characters removed by Python `str.strip()` at either end (the ASCII
whitespace set; non-ASCII Unicode whitespace is not modelled since the
diagnostics in question are ASCII process output). -/
def isPySpace (c : Char) : Bool :=
  c == ' ' || c == '\t' || c == '\n' || c == '\r' ||
  c == Char.ofNat 11 || c == Char.ofNat 12

/-- Python `str.strip()`: drop leading and trailing whitespace.
Used by the code on captured stderr (line 515) and `which` output (line 168). -/
def pyStrip (s : String) : String :=
  String.mk (((s.toList.dropWhile isPySpace).reverse.dropWhile isPySpace).reverse)

/-- Boolean sublist-containment on character lists: `containsSublist sub l`
is true when `sub` occurs contiguously inside `l`. -/
def containsSublist (sub : List Char) : List Char → Bool
  | [] => sub.isEmpty
  | c :: rest => sub.isPrefixOf (c :: rest) || containsSublist sub rest

/-- Python substring test `sub in s` on strings. -/
def strContains (s sub : String) : Bool :=
  containsSublist sub.toList s.toList

/-- Python `random.randint(a, b)` with an explicit entropy input `r`:
returns a value in `[a, b]` when `a ≤ b`, and raises `ValueError`
(modelled as `none`) when `a > b`. -/
def randint (a b : Nat) (r : Nat) : Option Nat :=
  if a ≤ b then some (a + r % (b - a + 1)) else none

/-- Local port allocation from `connect_rdp` lines 460-464:
`random.randint(self.settings["local_port_range"][0], self.settings["local_port_range"][1])`. -/
def allocateLocalPort (range : Nat × Nat) (r : Nat) : Option Nat :=
  randint range.1 range.2 r

/-- One row of the instances tree: the tuple of displayed values
(Name, Instance ID, State, Type, Private IP). -/
abbrev InstanceRecord := List String

/-- The `self.settings` dictionary (constructor lines 35-40).
`saved_instances` is a mapping profile name to list of instance records,
modelled as an association list in insertion order (Python dicts preserve
insertion order). -/
structure Settings where
  rdp_client : String
  default_profile : String
  saved_instances : List (String × List InstanceRecord)
  local_port_range : Nat × Nat
deriving DecidableEq, Repr

/-- The in-memory defaults assigned in the constructor before `load_settings`
runs (lines 35-40). -/
def initialSettings : Settings :=
  { rdp_client := ""
    default_profile := ""
    saved_instances := []
    local_port_range := (9800, 9900) }

/-- Outcome of one `subprocess.check_output(["which", client])` call in
`detect_rdp_client`: `none` when the call raised (client absent), otherwise
the stripped stdout.  `whichFallback w fb` is the value taken by
`self.settings["rdp_client"]` after trying `w`, given that it would be `fb`
if `w` yields nothing (the loop body `if path: set and break` lines 166-173:
an empty or failed result leaves the previous value and continues). -/
def whichFallback (w : Option String) (fb : String) : String :=
  match w with
  | some q => if q = "" then fb else q
  | none => fb

/-- `detect_rdp_client` (lines 152-173): Windows uses `mstsc.exe`; macOS uses
the app name `"Microsoft Remote Desktop"` when that app directory exists and
`""` otherwise; Linux-like tries `which rdesktop` then `which xfreerdp`,
keeping the prior value `prior` when neither yields a nonempty path. -/
def detect_rdp_client (sys : SystemKind) (msrdInstalled : Bool)
    (whichRdesktop whichXfreerdp : Option String) (prior : String) : String :=
  match sys with
  | .windows => "mstsc.exe"
  | .darwin => if msrdInstalled then "Microsoft Remote Desktop" else ""
  | .linuxLike => whichFallback whichRdesktop (whichFallback whichXfreerdp prior)

/-- State of the on-disk config file as found by `load_settings`:
absent, present but unparseable by `json.load`, or well-formed with
contents `s`. -/
inductive ConfigFile where
  | missing
  | malformed
  | wellFormed (s : Settings)

/-- Environment consulted by `detect_rdp_client` when it runs. -/
structure DetectEnv where
  sys : SystemKind
  msrdInstalled : Bool
  whichRdesktop : Option String
  whichXfreerdp : Option String

/-- `load_settings` (lines 130-142).  Returns the resulting in-memory
settings and whether `save_settings` wrote the file.  A well-formed file's
contents replace the defaults; a missing file triggers `detect_rdp_client`
followed by `save_settings`; a `json.load` failure on a malformed file is
caught by the `except` clause, which only shows a warning: the in-memory
defaults are kept unchanged and nothing is detected or written. -/
def load_settings (file : ConfigFile) (env : DetectEnv) : Settings × Bool :=
  match file with
  | .wellFormed s => (s, false)
  | .missing =>
      ({ initialSettings with
          rdp_client := detect_rdp_client env.sys env.msrdInstalled
            env.whichRdesktop env.whichXfreerdp initialSettings.rdp_client }, true)
  | .malformed => (initialSettings, false)

/-- Python truthiness of an optional string: `None` and `""` are falsy. -/
def pyTruthy (s : Option String) : Bool :=
  match s with
  | none => false
  | some t => !(t == "")

/-- Result of the profile-resolution block of `connect_rdp`:
the connection profile finally used, whether the "Profile Not Found"
(ProfileMismatch) warning box was shown, and whether the profile-switch
block (lines 432-440) ran. -/
structure ResolveResult where
  connectionProfile : Option String
  mismatchWarning : Bool
  switched : Bool
deriving DecidableEq, Repr

/-- Profile resolution from `connect_rdp` (lines 417-437).
`currentProfile` is `self.current_profile`, `tags` the tree item's tags
(a saved instance carries its profile as `tags[0]`), `knownProfiles` the
list `self.aws_profiles`.  The code sets
`connection_profile = self.current_profile`, then, when a tag is present:
if it is truthy and in the known list it becomes the connection profile;
else if it is truthy a warning is shown and the current profile is kept;
an empty tag takes neither branch.  The switch block runs iff
`connection_profile` is truthy and differs from `current_profile`. -/
def resolveProfile (currentProfile : Option String) (tags : List String)
    (knownProfiles : List String) : ResolveResult :=
  let res : Option String × Bool :=
    match tags with
    | [] => (currentProfile, false)
    | t :: _ =>
        if t ≠ "" ∧ t ∈ knownProfiles then (some t, false)
        else if t ≠ "" then (currentProfile, true)
        else (currentProfile, false)
  { connectionProfile := res.1
    mismatchWarning := res.2
    switched := pyTruthy res.1 && decide (res.1 ≠ currentProfile) }

/-- The description of the profile-resolution algorithm as the spec states
it (with an empty tag behaving as no tag, which is what the truthiness
checks in the code give): a known tag becomes the effective profile, an
unknown tag is reported and falls back to the active profile, no tag keeps
the active profile, and `switched` is true iff the effective profile
differs from the active one. -/
def specResolveProfile (active : String) (tag : Option String)
    (known : List String) : ResolveResult :=
  match tag with
  | some t =>
      if t = "" then
        { connectionProfile := some active, mismatchWarning := false, switched := false }
      else if t ∈ known then
        { connectionProfile := some t, mismatchWarning := false, switched := decide (t ≠ active) }
      else
        { connectionProfile := some active, mismatchWarning := true, switched := false }
  | none => { connectionProfile := some active, mismatchWarning := false, switched := false }

/-- The backing tunnel subprocess as observable through `poll()`:
`running` is true when `poll() is None`, and `stderrText` is the raw text
on its error stream. -/
structure TunnelProcess where
  running : Bool
  stderrText : String
deriving DecidableEq, Repr

/-- Effect of `process.terminate()` on a running process: it stops running. -/
def terminateTunnelProcess (p : TunnelProcess) : TunnelProcess :=
  { p with running := false }

/-- The guarded termination used on teardown (`main` lines 731-736, and the
`except` cleanup in `setup_and_connect` lines 607-610):
`if tunnel_process and tunnel_process.poll() is None: tunnel_process.terminate()`.
A missing handle or an already-exited process is left untouched. -/
def cleanupTunnelProcess (h : Option TunnelProcess) : Option TunnelProcess :=
  match h with
  | none => none
  | some p => if p.running then some (terminateTunnelProcess p) else some p

/-- Application state relevant to tunnel lifetime: `procs` is the running
flag of every tunnel subprocess spawned so far (oldest first; an entry
stays in the list even when the Python object is no longer referenced,
because the OS process outlives the reference), and `tunnelProcess` is the
index held by `self.tunnel_process`. -/
structure AppState where
  procs : List Bool
  tunnelProcess : Option Nat
deriving DecidableEq, Repr

/-- The tunnel-start step of `setup_and_connect` (lines 504-508):
`self.tunnel_process = subprocess.Popen(command, ...)` spawns a new
process and overwrites the handle reference.  No prior process is
terminated anywhere on this path (`connect_rdp` lines 397-475 and
`setup_and_connect` up to line 508 contain no `terminate` call). -/
def startTunnelProcess (s : AppState) : AppState :=
  { procs := s.procs ++ [true], tunnelProcess := some s.procs.length }

/-- Outcomes of the external actions `setup_and_connect` may take after
the tunnel is started, as inputs to the embedding:
whether the process has already exited when `poll()` runs after the 2 s
grace sleep, its stderr text, and whether each possible launch-related
external call succeeds (a false means the corresponding Python call raised
or, for the tunnel, that it exited). -/
structure SetupEnv where
  sys : SystemKind
  tunnelExitsWithinGrace : Bool
  tunnelStderr : String
  fileWriteOk : Bool
  winLaunchOk : Bool
  macOpenFileOk : Bool
  macOpenAppOk : Bool
  macOpenUrlOk : Bool
  linuxSpawnOk : Bool
deriving DecidableEq, Repr

/-- Identifies which concrete launch invocation an attempt used. -/
inductive LaunchMethod where
  | winMstsc
  | macOpenFile
  | macOpenApp
  | macOpenUrl
  | linuxClient
deriving DecidableEq, Repr

/-- One executed launch attempt and whether its spawn succeeded. -/
structure LaunchRecord where
  method : LaunchMethod
  succeeded : Bool
deriving DecidableEq, Repr

/-- Observable outcome of one `setup_and_connect` run: the diagnostic of a
failed tunnel (status "Tunnel setup failed: ..."), whether control reached
the "Launching RDP client..." status (line 521), the launch attempts
executed in order, the manual-connection message if shown (lines 573-576),
and the argv of the Linux client spawn (lines 585-591). -/
structure SetupResult where
  tunnelFailed : Option String
  launchingStarted : Bool
  attempts : List LaunchRecord
  manualMessage : Option String
  linuxArgs : Option (List String)
deriving DecidableEq, Repr

/-- The message of the "Manual Connection Required" box (lines 573-576):
`f"Please open your RDP client manually and connect to localhost:{local_port}"`. -/
def manualConnectionMessage (localPort : Nat) : String :=
  "Please open your RDP client manually and connect to " ++
    ("localhost:" ++ toString localPort)

/-- The nested try/except chain of the macOS branch (lines 554-576):
method 1 `open file`, on exception method 2 `open -a app file`, on
exception method 3 `open rdp://...`, on exception the manual-connection
message. -/
def macLaunchChain (e : SetupEnv) (localPort : Nat) : List LaunchRecord × Option String :=
  if e.macOpenFileOk then ([⟨.macOpenFile, true⟩], none)
  else if e.macOpenAppOk then ([⟨.macOpenFile, false⟩, ⟨.macOpenApp, true⟩], none)
  else if e.macOpenUrlOk then
    ([⟨.macOpenFile, false⟩, ⟨.macOpenApp, false⟩, ⟨.macOpenUrl, true⟩], none)
  else
    ([⟨.macOpenFile, false⟩, ⟨.macOpenApp, false⟩, ⟨.macOpenUrl, false⟩],
      some (manualConnectionMessage localPort))

/-- Outcome of one `subprocess.Popen` call in the macOS launch chain as the
OS delivers it: either the call raised before any process existed, or a
process was spawned and later exited with the given code.  The code's
`except` clauses can observe only the raise; it never calls `wait()` or
`poll()` on these processes, so their exit codes are invisible to it. -/
inductive SpawnOutcome where
  | raised
  | spawned (exitCode : Nat)
deriving DecidableEq, Repr

/-- True when the `Popen` call raised — the only kind of launch failure the
chain's `except` clauses can detect. -/
def SpawnOutcome.isRaised : SpawnOutcome → Bool
  | .raised => true
  | .spawned _ => false

/-- One macOS launch attempt together with the full outcome of its spawn,
exit code included. -/
structure MacAttempt where
  method : LaunchMethod
  outcome : SpawnOutcome
deriving DecidableEq, Repr

/-- The macOS launch chain (lines 554-576) with spawn outcomes tracked in
full: each `except` catches only a raised `Popen`, so a spawned process
ends the chain immediately, whatever exit code it later produces; only
when a spawn raises is the next method tried, and only three consecutive
raises reach the manual-connection message. -/
def macLaunchChainFull (a b c : SpawnOutcome) (localPort : Nat) :
    List MacAttempt × Option String :=
  match a with
  | .spawned k => ([⟨.macOpenFile, .spawned k⟩], none)
  | .raised =>
      match b with
      | .spawned k => ([⟨.macOpenFile, .raised⟩, ⟨.macOpenApp, .spawned k⟩], none)
      | .raised =>
          match c with
          | .spawned k =>
              ([⟨.macOpenFile, .raised⟩, ⟨.macOpenApp, .raised⟩,
                ⟨.macOpenUrl, .spawned k⟩], none)
          | .raised =>
              ([⟨.macOpenFile, .raised⟩, ⟨.macOpenApp, .raised⟩,
                ⟨.macOpenUrl, .raised⟩], some (manualConnectionMessage localPort))

/-- Argument vector of the single Linux launch (lines 585-591): the
`rdesktop` substring test comes first, then `xfreerdp`, then the generic
fallback which uses the same form as `rdesktop`. -/
def linuxClientArgs (rdpClient : String) (localPort : Nat) : List String :=
  if strContains rdpClient "rdesktop" then [rdpClient, "localhost:" ++ toString localPort]
  else if strContains rdpClient "xfreerdp" then
    [rdpClient, "/v:localhost:" ++ toString localPort]
  else [rdpClient, "localhost:" ++ toString localPort]

/-- `setup_and_connect` after the tunnel spawn (lines 510-597): sleep the
2 s grace, poll; if the process exited, capture `stderr.read().strip()` as
the diagnostic, surface it and return without launching; otherwise enter
the launch section and run the platform branch. -/
def setup_and_connect (e : SetupEnv) (rdpClient : String) (localPort : Nat) : SetupResult :=
  if e.tunnelExitsWithinGrace then
    { tunnelFailed := some (pyStrip e.tunnelStderr)
      launchingStarted := false
      attempts := []
      manualMessage := none
      linuxArgs := none }
  else
    match e.sys with
    | .windows =>
        { tunnelFailed := none
          launchingStarted := true
          attempts := if e.fileWriteOk then [⟨.winMstsc, e.winLaunchOk⟩] else []
          manualMessage := none
          linuxArgs := none }
    | .darwin =>
        if e.fileWriteOk then
          { tunnelFailed := none
            launchingStarted := true
            attempts := (macLaunchChain e localPort).1
            manualMessage := (macLaunchChain e localPort).2
            linuxArgs := none }
        else
          { tunnelFailed := none
            launchingStarted := true
            attempts := []
            manualMessage := none
            linuxArgs := none }
    | .linuxLike =>
        { tunnelFailed := none
          launchingStarted := true
          attempts := [⟨.linuxClient, e.linuxSpawnOk⟩]
          manualMessage := none
          linuxArgs := some (linuxClientArgs rdpClient localPort) }

/-- Helper: when the configured range is non-empty, `allocateLocalPort`
returns a port inside it. -/
lemma allocateLocalPort_some_of_le (range : Nat × Nat) (r : Nat)
    (h : range.1 ≤ range.2) :
    ∃ v, allocateLocalPort range r = some v ∧ range.1 ≤ v ∧ v ≤ range.2 := by
  refine ⟨range.1 + r % (range.2 - range.1 + 1), ?_, ?_, ?_⟩
  · simp [allocateLocalPort, randint, h]
  · exact Nat.le_add_right _ _
  · have hm : r % (range.2 - range.1 + 1) < range.2 - range.1 + 1 :=
      Nat.mod_lt r (Nat.succ_pos _)
    omega

/-- C2: for every port range with min < max, port allocation returns an
integer value v with min ≤ v ≤ max (both bounds inclusive). -/
theorem C2_allocate_in_range (range : Nat × Nat) (r : Nat)
    (h : range.1 < range.2) :
    ∃ v, allocateLocalPort range r = some v ∧ range.1 ≤ v ∧ v ≤ range.2 :=
  allocateLocalPort_some_of_le range r (Nat.le_of_lt h)

/-- Witness for C2 at the default range [9800, 9900]. -/
theorem C2_allocate_in_range_witness :
    ∃ v, allocateLocalPort (9800, 9900) 123 = some v ∧ 9800 ≤ v ∧ v ≤ 9900 :=
  C2_allocate_in_range (9800, 9900) 123 (by decide)

/-- C3 counterexample: the claim says allocation with min ≥ max always
fails, but at min = max = 9800 the code's `random.randint(9800, 9800)`
succeeds and returns 9800. -/
theorem C3_counterexample :
    allocateLocalPort (9800, 9800) 0 = some 9800 ∧ (9800 : Nat) ≥ 9800 := by
  constructor
  · rfl
  · exact Nat.le_refl _

/-- C3 amended: allocation fails (raises ValueError) if and only if
min > max; whenever min ≤ max — including min = max — it returns a value in
[min, max] inclusive. -/
theorem C3_allocate_fails_iff (range : Nat × Nat) (r : Nat) :
    (allocateLocalPort range r = none ↔ range.2 < range.1) ∧
    (range.1 ≤ range.2 →
      ∃ v, allocateLocalPort range r = some v ∧ range.1 ≤ v ∧ v ≤ range.2) := by
  constructor
  · constructor
    · intro hn
      by_contra hlt
      have h : range.1 ≤ range.2 := by omega
      simp [allocateLocalPort, randint, h] at hn
    · intro hlt
      have h : ¬ range.1 ≤ range.2 := by omega
      simp [allocateLocalPort, randint, h]
  · exact allocateLocalPort_some_of_le range r

/-- Witness for C3 amended: at min = max the allocation succeeds inside the
range, and at min > max it fails. -/
theorem C3_allocate_fails_iff_witness :
    (∃ v, allocateLocalPort (9800, 9800) 7 = some v ∧ 9800 ≤ v ∧ v ≤ 9800) ∧
    allocateLocalPort (9900, 9800) 7 = none :=
  ⟨(C3_allocate_fails_iff (9800, 9800) 7).2 (by decide),
   (C3_allocate_fails_iff (9900, 9800) 7).1.mpr (by decide)⟩

/-- C1 counterexample: starting from no tunnel, two consecutive connection
requests each reach the tunnel-start step; after the second start the first
run's process (index 0) is still running — it was never terminated before
the new tunnel was started, and the prior `Connected` run's handle is not
`Terminated` once the new one (index 1) is adopted as current. -/
theorem C1_counterexample :
    (startTunnelProcess ⟨[], none⟩).tunnelProcess = some 0 ∧
    (startTunnelProcess (startTunnelProcess ⟨[], none⟩)).tunnelProcess = some 1 ∧
    (startTunnelProcess (startTunnelProcess ⟨[], none⟩)).procs[0]? = some true := by
  refine ⟨rfl, rfl, rfl⟩

/-- C1 amended: starting a new tunnel overwrites `self.tunnel_process`
without terminating the prior tunnel: every process that was running before
the start (in particular a prior Connected run's tunnel) is still running
afterwards, while the handle now points at the newly spawned process. -/
theorem C1_new_start_leaks_prior (s : AppState) (i : Nat)
    (h : s.procs[i]? = some true) :
    (startTunnelProcess s).procs[i]? = some true ∧
    (startTunnelProcess s).tunnelProcess = some s.procs.length := by
  constructor
  · have hi : i < s.procs.length := by
      by_contra hge
      rw [List.getElem?_eq_none (Nat.le_of_not_lt hge)] at h
      exact Option.noConfusion h
    rw [startTunnelProcess]
    simpa [List.getElem?_append_left hi] using h
  · rfl

/-- Witness for C1 amended: one prior running tunnel survives a new start. -/
theorem C1_new_start_leaks_prior_witness :
    (startTunnelProcess ⟨[true], some 0⟩).procs[0]? = some true ∧
    (startTunnelProcess ⟨[true], some 0⟩).tunnelProcess = some 1 :=
  C1_new_start_leaks_prior ⟨[true], some 0⟩ 0 rfl

/-- C8: tunnel termination is idempotent — the guarded `terminate` is a
no-op on a handle whose process has already exited (Terminated or Failed),
terminating twice produces the same state as terminating once, the result
of a termination is always a non-running (Terminated) process, and a
missing handle is untouched. -/
theorem C8_terminate_idempotent (p : TunnelProcess) :
    (p.running = false → cleanupTunnelProcess (some p) = some p) ∧
    cleanupTunnelProcess (cleanupTunnelProcess (some p)) = cleanupTunnelProcess (some p) ∧
    (∃ q, cleanupTunnelProcess (some p) = some q ∧ q.running = false) ∧
    cleanupTunnelProcess none = none := by
  obtain ⟨running, stderrText⟩ := p
  cases running <;>
    simp [cleanupTunnelProcess, terminateTunnelProcess]

/-- Witness for C8 on a handle whose process has already exited. -/
theorem C8_terminate_idempotent_witness :
    cleanupTunnelProcess (some ⟨false, "exited"⟩) = some ⟨false, "exited"⟩ :=
  (C8_terminate_idempotent ⟨false, "exited"⟩).1 rfl

/-- C4 counterexample: the claim requires a ProfileMismatch warning whenever
a carried tag is not in the known-profile set, but the code's truthiness
check (`elif saved_profile:`) skips the warning for the empty-string tag:
with active profile "dev", known profiles ["dev"], and a carried tag "",
the tag is not in the known set yet no warning is reported (the effective
profile silently stays "dev"). -/
theorem C4_counterexample :
    resolveProfile (some "dev") [""] ["dev"] =
      { connectionProfile := some "dev", mismatchWarning := false, switched := false } ∧
    ¬ ("" ∈ (["dev"] : List String)) := by
  constructor
  · rfl
  · decide

/-- C4 amended: profile resolution behaves as claimed for every nonempty
tag, with an empty tag behaving as if no tag were carried: a carried
nonempty tag in the known set becomes the effective profile; a carried
nonempty tag outside the known set reports a ProfileMismatch warning and
falls back to the active profile; no tag (or an empty tag) keeps the
active profile; and `switched` is true iff the effective profile differs
from the active profile. -/
theorem C4_resolve_matches_spec (active : String) (tags : List String)
    (known : List String) :
    resolveProfile (some active) tags known =
      specResolveProfile active tags.head? known ∧
    (resolveProfile (some active) tags known).switched =
      decide ((resolveProfile (some active) tags known).connectionProfile ≠ some active) := by
  cases tags with
  | nil =>
      constructor
      · simp [resolveProfile, specResolveProfile, pyTruthy]
      · simp [resolveProfile, pyTruthy]
  | cons t rest =>
      by_cases ht : t = ""
      · subst ht
        constructor
        · simp [resolveProfile, specResolveProfile, pyTruthy]
        · simp [resolveProfile, pyTruthy]
      · by_cases hk : t ∈ known
        · constructor
          · simp [resolveProfile, specResolveProfile, pyTruthy, ht, hk]
          · simp [resolveProfile, pyTruthy, ht, hk]
        · constructor
          · simp [resolveProfile, specResolveProfile, pyTruthy, ht, hk]
          · simp [resolveProfile, pyTruthy, ht, hk]

/-- C9 counterexample: the claim says a malformed configuration file
triggers a rebuild with a platform-autodetected client guess, but the code
catches the `json.load` failure and only shows a warning: on a Linux-like
system where detection would find `/usr/bin/rdesktop`, loading a malformed
file leaves the in-memory defaults unchanged (client "", nothing written),
not the detected client. -/
theorem C9_counterexample :
    load_settings ConfigFile.malformed
        ⟨.linuxLike, false, some "/usr/bin/rdesktop", none⟩ = (initialSettings, false) ∧
    initialSettings.rdp_client = "" ∧
    detect_rdp_client .linuxLike false (some "/usr/bin/rdesktop") none "" =
      "/usr/bin/rdesktop" ∧
    ("" : String) ≠ "/usr/bin/rdesktop" := by
  refine ⟨rfl, rfl, rfl, by decide⟩

/-- C9 amended: at startup, a missing configuration file triggers a rebuild
whose client is the platform-autodetected guess and writes the file; a
malformed (unparseable) file leaves the in-memory defaults unchanged (only
a warning is shown, nothing is detected or written); a well-formed file's
contents replace the in-memory defaults. -/
theorem C9_load_settings (env : DetectEnv) (s : Settings) :
    load_settings ConfigFile.missing env =
      ({ initialSettings with
          rdp_client := detect_rdp_client env.sys env.msrdInstalled
            env.whichRdesktop env.whichXfreerdp initialSettings.rdp_client }, true) ∧
    load_settings ConfigFile.malformed env = (initialSettings, false) ∧
    load_settings (ConfigFile.wellFormed s) env = (s, false) :=
  ⟨rfl, rfl, rfl⟩

/-- C5 counterexample: the claim says the captured diagnostic equals the
process's error-stream text, but the code applies `.strip()` to the stream
(line 515): a tunnel process that exits within the grace window with
stderr "boom\n" yields diagnostic "boom", not "boom\n". -/
theorem C5_counterexample :
    (setup_and_connect
        ⟨.darwin, true, "boom\n", true, false, false, false, false, false⟩
        "Microsoft Remote Desktop" 9800).tunnelFailed = some "boom" ∧
    "boom" ≠ "boom\n" := by
  refine ⟨rfl, by decide⟩

/-- C5 amended: if the backing process has exited within the 2 s grace
window, the run is marked Failed with a captured diagnostic equal to the
whitespace-stripped error-stream text, the failure is surfaced, and the
remote-desktop client launch is not attempted (no launch section, no
attempts); if the process has not exited, the handle is treated as Live and
the launch proceeds. -/
theorem C5_tunnel_confirm (e : SetupEnv) (client : String) (port : Nat) :
    (e.tunnelExitsWithinGrace = true →
      (setup_and_connect e client port).tunnelFailed = some (pyStrip e.tunnelStderr) ∧
      (setup_and_connect e client port).launchingStarted = false ∧
      (setup_and_connect e client port).attempts = []) ∧
    (e.tunnelExitsWithinGrace = false →
      (setup_and_connect e client port).tunnelFailed = none ∧
      (setup_and_connect e client port).launchingStarted = true) := by
  constructor
  · intro h
    simp [setup_and_connect, h]
  · intro h
    cases hs : e.sys <;> simp [setup_and_connect, h, hs]
    by_cases hw : e.fileWriteOk <;> simp [hw]

/-- Witness for C5 on both branches: a process dead within the grace window
(stderr " tunnel died ") and a live one. -/
theorem C5_tunnel_confirm_witness :
    ((setup_and_connect ⟨.linuxLike, true, " tunnel died ", true, false, false, false, false, true⟩
        "/usr/bin/rdesktop" 9801).tunnelFailed = some (pyStrip " tunnel died ") ∧
     (setup_and_connect ⟨.linuxLike, true, " tunnel died ", true, false, false, false, false, true⟩
        "/usr/bin/rdesktop" 9801).launchingStarted = false ∧
     (setup_and_connect ⟨.linuxLike, true, " tunnel died ", true, false, false, false, false, true⟩
        "/usr/bin/rdesktop" 9801).attempts = []) ∧
    ((setup_and_connect ⟨.linuxLike, false, "", true, false, false, false, false, true⟩
        "/usr/bin/rdesktop" 9801).tunnelFailed = none ∧
     (setup_and_connect ⟨.linuxLike, false, "", true, false, false, false, false, true⟩
        "/usr/bin/rdesktop" 9801).launchingStarted = true) :=
  ⟨(C5_tunnel_confirm ⟨.linuxLike, true, " tunnel died ", true, false, false, false, false, true⟩
      "/usr/bin/rdesktop" 9801).1 rfl,
   (C5_tunnel_confirm ⟨.linuxLike, false, "", true, false, false, false, false, true⟩
      "/usr/bin/rdesktop" 9801).2 rfl⟩

/-- Helper: the boolean environment view used by `setup_and_connect` agrees
with the exit-code-tracking chain — a recorded attempt is marked successful
there exactly when its spawn did not raise, and the manual messages
coincide.  The boolean view is the quotient of the full one that forgets
exit codes, which is exactly the information the code can act on. -/
lemma macLaunchChain_eq_full (a b c : SpawnOutcome) (port : Nat)
    (e : SetupEnv) (ha : e.macOpenFileOk = !a.isRaised)
    (hb : e.macOpenAppOk = !b.isRaised) (hc : e.macOpenUrlOk = !c.isRaised) :
    (macLaunchChainFull a b c port).1.map
        (fun r => (⟨r.method, !r.outcome.isRaised⟩ : LaunchRecord)) =
      (macLaunchChain e port).1 ∧
    (macLaunchChainFull a b c port).2 = (macLaunchChain e port).2 := by
  cases a <;> cases b <;> cases c <;>
    simp [macLaunchChainFull, macLaunchChain, SpawnOutcome.isRaised, ha, hb, hc]

/-- C6 counterexample: per the claim an attempt's failure — which by its
source includes a non-zero exit — is recorded and the next attempt tried,
but the chain detects only spawn exceptions: when the first `open` spawns
successfully yet exits with code 1 (a failure in the claim's sense) while
the second method would succeed, the chain still stops after that single
attempt, attempt (b) is never invoked, and the sequence does not have the
two entries [Failed, Success] the claim requires. -/
theorem C6_counterexample :
    macLaunchChainFull (.spawned 1) (.spawned 0) .raised 9805 =
      ([⟨.macOpenFile, .spawned 1⟩], none) ∧
    (macLaunchChainFull (.spawned 1) (.spawned 0) .raised 9805).1.length = 1 ∧
    (1 : Nat) ≠ 0 := by
  refine ⟨rfl, rfl, by decide⟩

/-- C6 amended: on a macOS-like platform the chain performs at most three
attempts in the fixed order (open the descriptor file, open through the
named app, open the scheme URI); only a spawn error is detected as a
failure and followed by the next attempt — exit codes are never inspected,
so a spawned process ends the chain whatever its exit code (in particular
a first attempt whose spawn raises followed by a successful second spawn
gives exactly two attempts and the URI attempt is never invoked); all
attempts before the last have raised; and only three raised spawns surface
the manual-connection instruction containing "localhost:{localPort}". -/
theorem C6_mac_spawn_chain (a b c : SpawnOutcome) (port : Nat) :
    (macLaunchChainFull a b c port).1.length ≤ 3 ∧
    ((macLaunchChainFull a b c port).1.map MacAttempt.method).isPrefixOf
      [LaunchMethod.macOpenFile, LaunchMethod.macOpenApp, LaunchMethod.macOpenUrl] = true ∧
    ((macLaunchChainFull a b c port).1.dropLast.all
      (fun r => r.outcome.isRaised)) = true ∧
    (∀ k, macLaunchChainFull (.spawned k) b c port =
      ([⟨.macOpenFile, .spawned k⟩], none)) ∧
    (a = .raised → ∀ k, b = .spawned k →
      (macLaunchChainFull a b c port).1 =
        [⟨.macOpenFile, .raised⟩, ⟨.macOpenApp, .spawned k⟩] ∧
      (macLaunchChainFull a b c port).2 = none) ∧
    ((macLaunchChainFull a b c port).2 = some (manualConnectionMessage port) ↔
      a = .raised ∧ b = .raised ∧ c = .raised) ∧
    (a = .raised → b = .raised → c = .raised →
      ∃ pre, manualConnectionMessage port = pre ++ ("localhost:" ++ toString port)) := by
  refine ⟨?_, ?_, ?_, ?_, ?_, ?_, ?_⟩
  · cases a <;> cases b <;> cases c <;> simp [macLaunchChainFull]
  · cases a <;> cases b <;> cases c <;> simp [macLaunchChainFull, List.isPrefixOf]
  · cases a <;> cases b <;> cases c <;> simp [macLaunchChainFull, SpawnOutcome.isRaised]
  · intro k
    rfl
  · intro ha k hb
    subst ha; subst hb
    exact ⟨rfl, rfl⟩
  · cases a <;> cases b <;> cases c <;> simp [macLaunchChainFull]
  · intro ha hb hc
    exact ⟨"Please open your RDP client manually and connect to ", rfl⟩

/-- Witness for C6 amended: a raised first spawn followed by a successful
second spawn gives exactly the two recorded attempts and no manual message,
and three raised spawns surface the manual message. -/
theorem C6_mac_spawn_chain_witness :
    (macLaunchChainFull .raised (.spawned 0) .raised 9805).1 =
      [⟨.macOpenFile, .raised⟩, ⟨.macOpenApp, .spawned 0⟩] ∧
    (macLaunchChainFull .raised (.spawned 0) .raised 9805).2 = none ∧
    (macLaunchChainFull .raised .raised .raised 9805).2 =
      some (manualConnectionMessage 9805) :=
  ⟨((C6_mac_spawn_chain .raised (.spawned 0) .raised 9805).2.2.2.2.1 rfl 0 rfl).1,
   ((C6_mac_spawn_chain .raised (.spawned 0) .raised 9805).2.2.2.2.1 rfl 0 rfl).2,
   ((C6_mac_spawn_chain .raised .raised .raised 9805).2.2.2.2.2.1).mpr
     ⟨rfl, rfl, rfl⟩⟩

/-- C7 counterexample: the claim assigns the '/v:localhost:{port}' form to
every client path containing "xfreerdp", but the code tests "rdesktop"
first: the path "xfreerdp-rdesktop" contains "xfreerdp" yet gets the
'localhost:{port}' form. -/
theorem C7_counterexample :
    strContains "xfreerdp-rdesktop" "xfreerdp" = true ∧
    linuxClientArgs "xfreerdp-rdesktop" 9800 =
      ["xfreerdp-rdesktop", "localhost:9800"] ∧
    ("localhost:9800" : String) ≠ "/v:localhost:9800" := by
  refine ⟨by decide, by decide, by decide⟩

/-- C7 amended: on a POSIX-like platform exactly one launch attempt is
made, with argument form selected by substring matching in order: a path
containing "rdesktop" gets 'localhost:{port}'; a path containing
"xfreerdp" but not "rdesktop" gets '/v:localhost:{port}'; a path
containing neither falls back to 'localhost:{port}'. -/
theorem C7_linux_launch (e : SetupEnv) (client : String) (port : Nat)
    (hs : e.sys = .linuxLike) (hg : e.tunnelExitsWithinGrace = false) :
    (setup_and_connect e client port).attempts.length = 1 ∧
    (setup_and_connect e client port).linuxArgs = some (linuxClientArgs client port) ∧
    (strContains client "rdesktop" = true →
      linuxClientArgs client port = [client, "localhost:" ++ toString port]) ∧
    (strContains client "rdesktop" = false → strContains client "xfreerdp" = true →
      linuxClientArgs client port = [client, "/v:localhost:" ++ toString port]) ∧
    (strContains client "rdesktop" = false → strContains client "xfreerdp" = false →
      linuxClientArgs client port = [client, "localhost:" ++ toString port]) := by
  refine ⟨?_, ?_, ?_, ?_, ?_⟩
  · simp [setup_and_connect, hs, hg]
  · simp [setup_and_connect, hs, hg]
  · intro h1
    simp [linuxClientArgs, h1]
  · intro h1 h2
    simp [linuxClientArgs, h1, h2]
  · intro h1 h2
    simp [linuxClientArgs, h1, h2]

/-- Witness for C7 at a client path containing "xfreerdp" but not
"rdesktop", and one containing neither. -/
theorem C7_linux_launch_witness :
    (setup_and_connect ⟨.linuxLike, false, "", true, false, false, false, false, true⟩
        "/usr/bin/xfreerdp" 9800).attempts.length = 1 ∧
    linuxClientArgs "/usr/bin/xfreerdp" 9800 =
      ["/usr/bin/xfreerdp", "/v:localhost:" ++ toString 9800] ∧
    linuxClientArgs "/usr/bin/remmina" 9800 =
      ["/usr/bin/remmina", "localhost:" ++ toString 9800] :=
  ⟨(C7_linux_launch ⟨.linuxLike, false, "", true, false, false, false, false, true⟩
      "/usr/bin/xfreerdp" 9800 rfl rfl).1,
   (C7_linux_launch ⟨.linuxLike, false, "", true, false, false, false, false, true⟩
      "/usr/bin/xfreerdp" 9800 rfl rfl).2.2.2.1 (by decide) (by decide),
   (C7_linux_launch ⟨.linuxLike, false, "", true, false, false, false, false, true⟩
      "/usr/bin/remmina" 9800 rfl rfl).2.2.2.2 (by decide) (by decide)⟩

end EC2ICManager
